import Mathlib

/-!
Verification of the smart-terarium device registry and dispatch protocol.

Shallow embedding of the repository's device-registry code and its two
request dispatchers:

* `ClassManager` — the `class_manager` package (`manager.py`, `motor.py`
  from the sibling `class-manager` directory, `relay.py`, `sensor.py`,
  `device.py`, `device_status.py`, `enums.py`).
* `MainPy` — the duplicate device/manager classes in `main.py`,
  specialized at the integer call-sites exercised directly.
* `ClientServer` — the protocol logic of `client-server/server.py`
  (its own `device_map` registry of id/type pairs).
* `SWM` — `server-with-manager.py`, which drives `main.py`'s `Manager`
  with raw string message fields.

Python exceptions are modelled as `Except String` results; every handler
that catches exceptions is modelled by handling the `Except`.  Mutation is
modelled by explicit state passing: operations return the new registry
next to their result, and an operation that raises before mutating
returns the unchanged registry.
-/

set_option maxHeartbeats 1000000

namespace SmartTerarium

namespace ClassManager

/-- Source `class_manager/enums.py` / `class-manager/enums.py`: `SensorType`. -/
inductive SensorType where
  | lightSensor
  | co2Sensor
  | soilHumiditySensor
  | airHumidityAndTemperatureSensor
deriving DecidableEq

/-- Source `enums.py`: `DeviceType`. -/
inductive DeviceType where
  | motor
  | sensor
  | relay
deriving DecidableEq

/-- The `.value` strings of the `DeviceType` enum. -/
def DeviceType.value : DeviceType → String
  | .motor => "Motor"
  | .sensor => "Sensor"
  | .relay => "Relay"

/-- Source `enums.py`: `DeviceAction`. -/
inductive DeviceAction where
  | turnOn
  | turnOff
  | changeSpeed
  | changePath
  | getValue
deriving DecidableEq

/-- Python `str()` of a `DeviceAction` member, as interpolated into the
"Unknown action" error of `Manager.control_device`. -/
def DeviceAction.pyStr : DeviceAction → String
  | .turnOn => "DeviceAction.ON"
  | .turnOff => "DeviceAction.OFF"
  | .changeSpeed => "DeviceAction.CHANGE_SPEED"
  | .changePath => "DeviceAction.CHANGE_PATH"
  | .getValue => "DeviceAction.GET_VALUE"

/-- Source `class_manager/device_status.py`: the `DeviceStatus` constructor with
its optional fields (each defaults to `None`). -/
structure DeviceStatus where
  id : Int
  status : String
  speed : Option Int := none
  path : Option Int := none
  sensor_type : Option SensorType := none
  value : Option Int := none
deriving DecidableEq

/-- Source `class-manager/motor.py`: `Motor.__init__` fields (id, status, speed). -/
structure Motor where
  id : Int
  status : String
  speed : Int
deriving DecidableEq

/-- Source `class_manager/sensor.py`: `Sensor.__init__` fields; `sensor_type` is
`Option` because `Manager.create_device` may pass `None` through. -/
structure Sensor where
  id : Int
  status : String
  sensor_type : Option SensorType
  value : Int
deriving DecidableEq

/-- Source `class_manager/relay.py`: `Relay.__init__` fields; `path` starts as
`None` and is only set by the validating setter. -/
structure Relay where
  id : Int
  status : String
  path : Option Int
deriving DecidableEq

/-- Source `Motor.on`: unconditionally sets status to "on", returns confirmation. -/
def Motor.turnOn (m : Motor) : String × Motor :=
  ("Motor " ++ toString m.id ++ " is now ON.", { m with status := "on" })

/-- Source `Motor.off`. -/
def Motor.turnOff (m : Motor) : String × Motor :=
  ("Motor " ++ toString m.id ++ " is now OFF.", { m with status := "off" })

/-- Source `Motor.perform_action(speed)`: assigns through the `speed` setter,
which requires `0 <= value <= 100` and raises `ValueError` otherwise.
A `None` argument raises a `TypeError` at the `value >= 0` comparison. -/
def Motor.perform_action (m : Motor) (v : Option Int) :
    (Except String String) × Motor :=
  match v with
  | none =>
      (.error "\x27>=\x27 not supported between instances of \x27NoneType\x27 and \x27int\x27", m)
  | some s =>
      if 0 ≤ s ∧ s ≤ 100 then
        (.ok ("Speed of motor " ++ toString m.id ++ " changed to " ++ toString s),
         { m with speed := s })
      else
        (.error "Speed must be between (0-100) value", m)

/-- Source `Motor.device_status`: passes id, status and speed only. -/
def Motor.device_status (m : Motor) : DeviceStatus :=
  { id := m.id, status := m.status, speed := some m.speed }

/-- Source `Sensor.on`. -/
def Sensor.turnOn (s : Sensor) : String × Sensor :=
  ("Sensor " ++ toString s.id ++ " is now ON.", { s with status := "on" })

/-- Source `Sensor.off`. -/
def Sensor.turnOff (s : Sensor) : String × Sensor :=
  ("Sensor " ++ toString s.id ++ " is now OFF.", { s with status := "off" })

/-- Source `Sensor.perform_action()`: returns the stored value, no mutation. -/
def Sensor.perform_action (s : Sensor) : Int := s.value

/-- Source `Sensor.device_status`: passes id, status, sensor_type and value. -/
def Sensor.device_status (s : Sensor) : DeviceStatus :=
  { id := s.id, status := s.status, sensor_type := s.sensor_type,
    value := some s.value }

/-- Source `Relay.on`. -/
def Relay.turnOn (r : Relay) : String × Relay :=
  ("Relay " ++ toString r.id ++ " is now ON.", { r with status := "on" })

/-- Source `Relay.off`. -/
def Relay.turnOff (r : Relay) : String × Relay :=
  ("Relay " ++ toString r.id ++ " is now OFF.", { r with status := "off" })

/-- Source `Relay.perform_action(path)`: assigns through the `path` setter, which
requires `isinstance(value, int) and 1 <= value <= 3` and raises
`ValueError` otherwise (a `None` argument fails the `isinstance` check). -/
def Relay.perform_action (r : Relay) (v : Option Int) :
    (Except String String) × Relay :=
  match v with
  | none => (.error "Path must be an integer between 1 and 4", r)
  | some p =>
      if 1 ≤ p ∧ p ≤ 3 then
        (.ok ("Path of relay " ++ toString r.id ++ " changed to " ++ toString p),
         { r with path := some p })
      else
        (.error "Path must be an integer between 1 and 4", r)

/-- Source `Relay.device_status`: passes id, status and the (possibly `None`)
path. -/
def Relay.device_status (r : Relay) : DeviceStatus :=
  { id := r.id, status := r.status, path := r.path }

/-- The closed set of device variants behind the abstract `Device` class. -/
inductive Device where
  | motor (m : Motor)
  | sensor (s : Sensor)
  | relay (r : Relay)
deriving DecidableEq

/-- The `id` property common to all variants. -/
def Device.id : Device → Int
  | .motor m => m.id
  | .sensor s => s.id
  | .relay r => r.id

/-- The `status` property common to all variants. -/
def Device.status : Device → String
  | .motor m => m.status
  | .sensor s => s.status
  | .relay r => r.status

/-- The class name of the variant, as it appears in `on`/`off` messages. -/
def Device.typeName : Device → String
  | .motor _ => "Motor"
  | .sensor _ => "Sensor"
  | .relay _ => "Relay"

/-- Polymorphic `on()`: dispatches to the variant's method. -/
def Device.turnOn : Device → String × Device
  | .motor m => let (msg, m') := m.turnOn; (msg, .motor m')
  | .sensor s => let (msg, s') := s.turnOn; (msg, .sensor s')
  | .relay r => let (msg, r') := r.turnOn; (msg, .relay r')

/-- Polymorphic `off()`. -/
def Device.turnOff : Device → String × Device
  | .motor m => let (msg, m') := m.turnOff; (msg, .motor m')
  | .sensor s => let (msg, s') := s.turnOff; (msg, .sensor s')
  | .relay r => let (msg, r') := r.turnOff; (msg, .relay r')

/-- Source `isinstance(device, Motor)` as used by `Manager.control_device`. -/
def Device.isMotor : Device → Bool
  | .motor _ => true
  | _ => false

/-- Polymorphic `device_status()`: dispatches to the variant's method. -/
def Device.device_status : Device → DeviceStatus
  | .motor m => m.device_status
  | .sensor s => s.device_status
  | .relay r => r.device_status

/-- Source `class_manager/device.py` `Device.create`: factory constructing the
variant with its `__init__` defaults (`status="off"`, motor speed 0,
relay path `None`, sensor value 0). -/
def Device.create (dt : DeviceType) (id : Int) (st : Option SensorType) : Device :=
  match dt with
  | .motor => .motor { id := id, status := "off", speed := 0 }
  | .sensor => .sensor { id := id, status := "off", sensor_type := st, value := 0 }
  | .relay => .relay { id := id, status := "off", path := none }

/-- Source `class_manager/manager.py` `Manager`: owns the device list. -/
structure Manager where
  devices : List Device
deriving DecidableEq

/-- Source `Manager.create_device`: builds the device via the factory (passing
`sensor_type` only for sensors), appends it to the list — with no
duplicate-id check — and returns the confirmation message. -/
def Manager.create_device (m : Manager) (dt : DeviceType) (id : Int)
    (st : Option SensorType) : String × Manager :=
  let device := if dt = DeviceType.sensor then Device.create dt id st
                else Device.create dt id none
  ("A " ++ dt.value ++ " created with id " ++ toString id,
   ⟨m.devices ++ [device]⟩)

/-- The action dispatch inside `Manager.control_device`: the `if`/`elif`
chain on the action and the `isinstance` checks, applied to the device
that was found.  On an error the device is returned unchanged (every
raise in the source happens before any field assignment). -/
def Manager.dispatch (d : Device) (a : DeviceAction) (v : Option Int) :
    (Except String String) × Device :=
  match a, d with
  | .turnOn, d => let (msg, d') := d.turnOn; (.ok msg, d')
  | .turnOff, d => let (msg, d') := d.turnOff; (.ok msg, d')
  | .changeSpeed, .motor m =>
      let (res, m') := m.perform_action v; (res, .motor m')
  | .changePath, .relay r =>
      let (res, r') := r.perform_action v; (res, .relay r')
  | .getValue, .sensor s =>
      (.ok ("Value of sensor " ++ toString s.id ++ ": "
            ++ toString s.perform_action), .sensor s)
  | a, d =>
      (.error ("Unknown action or inappropriate device type for action: "
               ++ a.pyStr), d)

/-- The `next(d for d in self.devices if d.id == id)` lookup combined with
the in-place mutation of the found device: the first device whose id
matches is dispatched on and replaced; everything else is untouched. -/
def controlGo (id : Int) (a : DeviceAction) (v : Option Int) :
    List Device → (Except String String) × List Device
  | [] => (.error ("Device with ID " ++ toString id ++ " does not exist."), [])
  | d :: rest =>
      if d.id = id then
        let (res, d') := Manager.dispatch d a v
        (res, d' :: rest)
      else
        let (res, rest') := controlGo id a v rest
        (res, d :: rest')

/-- Source `Manager.control_device`: raises `ValueError` for an unknown id,
otherwise dispatches on the first matching device. -/
def Manager.control_device (m : Manager) (id : Int) (a : DeviceAction)
    (v : Option Int) : (Except String String) × Manager :=
  let (res, ds) := controlGo id a v m.devices
  (res, ⟨ds⟩)

/-- Source `Manager.get_state`: first matching device's `device_status()`, or a
`ValueError` if the id is unknown.  `device_status` only constructs a
fresh snapshot, so no device is mutated. -/
def Manager.get_state (m : Manager) (id : Int) : Except String DeviceStatus :=
  match m.devices.find? (fun d => d.id == id) with
  | some d => .ok d.device_status
  | none => .error ("Device with ID " ++ toString id ++ " does not exist.")

end ClassManager

namespace MainPy

/-- The duplicate `Motor` in `main.py`: its `speed` field is assigned
directly by `perform_action` (bypassing the `value >= 0` setter), so the
slot can dynamically hold the `None`/int that arrived with the request;
modelled as `Option Int` at the integer call-site. -/
structure Motor where
  id : Int
  status : String
  speed : Option Int
deriving DecidableEq

/-- The duplicate `Relay` in `main.py`: `path` is assigned directly with
no validation at all. -/
structure Relay where
  id : Int
  status : String
  path : Option Int
deriving DecidableEq

/-- The duplicate `Sensor` in `main.py`. -/
structure Sensor where
  id : Int
  status : String
  sensor_type : Option ClassManager.SensorType
  value : Int
deriving DecidableEq

/-- Python `str()` of the dynamic value held in a `main.py` device slot:
`None` prints as "None", an int as its decimal form. -/
def optIntStr : Option Int → String
  | none => "None"
  | some n => toString n

/-- Source `main.py` `Motor.perform_action(speed)`: `self.__speed = speed` with
no validation whatsoever, then the confirmation message. -/
def Motor.perform_action (m : Motor) (v : Option Int) : String × Motor :=
  ("Speed of motor " ++ toString m.id ++ " changed to " ++ optIntStr v,
   { m with speed := v })

/-- Source `main.py` `Relay.perform_action(path)`: direct assignment, no check. -/
def Relay.perform_action (r : Relay) (v : Option Int) : String × Relay :=
  ("Path of relay " ++ toString r.id ++ " changed to " ++ optIntStr v,
   { r with path := v })

/-- Source `main.py` `Sensor.perform_action()`. -/
def Sensor.perform_action (s : Sensor) : Int := s.value

/-- The `main.py` device variants. -/
inductive Device where
  | motor (m : Motor)
  | sensor (s : Sensor)
  | relay (r : Relay)
deriving DecidableEq

/-- Common `id` property. -/
def Device.id : Device → Int
  | .motor m => m.id
  | .sensor s => s.id
  | .relay r => r.id

/-- Source `main.py` `on()` methods (identical strings across variants' classes). -/
def Device.turnOn : Device → String × Device
  | .motor m => ("Motor " ++ toString m.id ++ " is now ON.", .motor { m with status := "on" })
  | .sensor s => ("Sensor " ++ toString s.id ++ " is now ON.", .sensor { s with status := "on" })
  | .relay r => ("Relay " ++ toString r.id ++ " is now ON.", .relay { r with status := "on" })

/-- Source `main.py` `off()` methods. -/
def Device.turnOff : Device → String × Device
  | .motor m => ("Motor " ++ toString m.id ++ " is now OFF.", .motor { m with status := "off" })
  | .sensor s => ("Sensor " ++ toString s.id ++ " is now OFF.", .sensor { s with status := "off" })
  | .relay r => ("Relay " ++ toString r.id ++ " is now OFF.", .relay { r with status := "off" })

/-- Source `main.py` `Device.create(device_type, id, speed=0, sensor_type=None,
path=None)`. -/
def Device.create (dt : ClassManager.DeviceType) (id : Int) (speed : Int)
    (st : Option ClassManager.SensorType) (path : Option Int) : Device :=
  match dt with
  | .motor => .motor { id := id, status := "off", speed := some speed }
  | .sensor => .sensor { id := id, status := "off", sensor_type := st, value := 0 }
  | .relay => .relay { id := id, status := "off", path := path }

/-- Source `main.py` `Manager`. -/
structure Manager where
  devices : List Device
deriving DecidableEq

/-- Source `main.py` `Manager.create_device`: factory then append, no duplicate
check. -/
def Manager.create_device (m : Manager) (dt : ClassManager.DeviceType)
    (id : Int) (speed : Int) (st : Option ClassManager.SensorType)
    (path : Option Int) : String × Manager :=
  let device := Device.create dt id speed st path
  ("A " ++ dt.value ++ " created with id " ++ toString id,
   ⟨m.devices ++ [device]⟩)

/-- The action dispatch inside `main.py` `Manager.control_device`;
`CHANGE_SPEED` on a motor and `CHANGE_PATH` on a relay always succeed
because the `perform_action` bodies assign without validation. -/
def Manager.dispatch (d : Device) (a : ClassManager.DeviceAction)
    (v : Option Int) : (Except String String) × Device :=
  match a, d with
  | .turnOn, d => let (msg, d') := d.turnOn; (.ok msg, d')
  | .turnOff, d => let (msg, d') := d.turnOff; (.ok msg, d')
  | .changeSpeed, .motor m =>
      let (msg, m') := m.perform_action v; (.ok msg, .motor m')
  | .changePath, .relay r =>
      let (msg, r') := r.perform_action v; (.ok msg, .relay r')
  | .getValue, .sensor s =>
      (.ok ("Value of sensor " ++ toString s.id ++ ": "
            ++ toString s.perform_action), .sensor s)
  | a, d =>
      (.error ("Unknown action or inappropriate device type for action: "
               ++ a.pyStr), d)

/-- Lookup-and-mutate of the first id match, as in the `ClassManager`
namespace. -/
def controlGo (id : Int) (a : ClassManager.DeviceAction) (v : Option Int) :
    List Device → (Except String String) × List Device
  | [] => (.error ("Device with ID " ++ toString id ++ " does not exist."), [])
  | d :: rest =>
      if d.id = id then
        let (res, d') := Manager.dispatch d a v
        (res, d' :: rest)
      else
        let (res, rest') := controlGo id a v rest
        (res, d :: rest')

/-- Source `main.py` `Manager.control_device`. -/
def Manager.control_device (m : Manager) (id : Int)
    (a : ClassManager.DeviceAction) (v : Option Int) :
    (Except String String) × Manager :=
  let (res, ds) := controlGo id a v m.devices
  (res, ⟨ds⟩)

end MainPy

/-- A decoded JSON request message, as consumed by both dispatchers.
`message.get(k)` yields `none` when the field is absent; textual fields
are strings per the wire schema. -/
structure Msg where
  request_type : Option Int := none
  device_id : Option String := none
  device_type : Option String := none
  device_action : Option String := none
  value : Option String := none
deriving DecidableEq

/-- An ASCII decimal digit. -/
def isDigitChar (c : Char) : Bool :=
  48 ≤ c.toNat && c.toNat ≤ 57

/-- Python `str.isdigit()` for the ASCII strings of the protocol:
nonempty and all characters are digits. -/
def pyIsDigit (s : String) : Bool :=
  !s.data.isEmpty && s.data.all isDigitChar

/-- Python `int(s)` on a digit string (only ever applied after an
`isdigit` check has passed). -/
def pyInt (s : String) : Nat :=
  s.data.foldl (fun n c => n * 10 + (c.toNat - 48)) 0

/-- Python `str.upper()` on one ASCII character. -/
def pyUpperChar (c : Char) : Char :=
  if 97 ≤ c.toNat ∧ c.toNat ≤ 122 then Char.ofNat (c.toNat - 32) else c

/-- Python `str.upper()` for the ASCII strings of the protocol. -/
def pyUpper (s : String) : String := ⟨s.data.map pyUpperChar⟩

namespace ClientServer

/-- Source `client-server/server.py` `DeviceType` (enum values are lowercase). -/
inductive DeviceType where
  | motor
  | sensor
  | relay
deriving DecidableEq

/-- The `.value` strings of this server's `DeviceType`. -/
def DeviceType.value : DeviceType → String
  | .motor => "motor"
  | .sensor => "sensor"
  | .relay => "relay"

/-- Source `DeviceType[name]` on the upper-cased request field: succeeds exactly
on the member names, else `KeyError`. -/
def parseDeviceType : String → Option DeviceType
  | "MOTOR" => some .motor
  | "SENSOR" => some .sensor
  | "RELAY" => some .relay
  | _ => none

/-- Source `client-server/server.py` `DeviceAction`. -/
inductive DeviceAction where
  | changeSpeed
  | changePath
  | getValue
  | turnOn
  | turnOff
deriving DecidableEq

/-- The `.value` strings of this server's `DeviceAction`. -/
def DeviceAction.value : DeviceAction → String
  | .changeSpeed => "change_speed"
  | .changePath => "change_path"
  | .getValue => "get_value"
  | .turnOn => "on"
  | .turnOff => "off"

/-- Source `DeviceAction[name]` on the upper-cased request field. -/
def parseDeviceAction : String → Option DeviceAction
  | "CHANGE_SPEED" => some .changeSpeed
  | "CHANGE_PATH" => some .changePath
  | "GET_VALUE" => some .getValue
  | "ON" => some .turnOn
  | "OFF" => some .turnOff
  | _ => none

/-- The response envelope; `data` holds the operation-specific fields
with values rendered to strings. -/
structure Response where
  result_code : Nat
  error_message : String
  data : List (String × String)
deriving DecidableEq

/-- An error response: `result_code=1`, message, empty data. -/
def errResp (msg : String) : Response :=
  { result_code := 1, error_message := msg, data := [] }

/-- A success response: `result_code=0`, empty message. -/
def okResp (data : List (String × String)) : Response :=
  { result_code := 0, error_message := "", data := data }

/-- The server's `device_map` dictionary (insertion-ordered id/type
pairs; keys are unique because insertion only happens after the
duplicate check). -/
abbrev DeviceMap := List (Nat × DeviceType)

/-- Source `device_id in device_map` / `device_map.get(device_id)`. -/
def DeviceMap.lookup (m : DeviceMap) (id : Nat) : Option DeviceType :=
  match (List.find? (fun e => e.1 == id) m) with
  | some e => some e.2
  | none => none

/-- Source `Server.create_device`: validates the id (digits, positive), rejects
duplicates, parses the type name case-insensitively, then inserts.  All
raises are caught in the function's own `except` clauses, and every
raise happens before the dictionary assignment. -/
def create_device (msg : Msg) (map : DeviceMap) : Response × DeviceMap :=
  match msg.device_id with
  | none =>
      (errResp "\x27NoneType\x27 object has no attribute \x27isdigit\x27", map)
  | some s =>
      if pyIsDigit s then
        let device_id := pyInt s
        if device_id ≤ 0 then
          (errResp "Device ID must be greater than zero.", map)
        else if (map.lookup device_id).isSome then
          (errResp "Device ID already exists.", map)
        else
          match msg.device_type with
          | none =>
              (errResp "\x27NoneType\x27 object has no attribute \x27upper\x27", map)
          | some t =>
              match parseDeviceType (pyUpper t) with
              | none =>
                  (errResp "Device type must be one of: MOTOR, SENSOR, RELAY.", map)
              | some dt =>
                  (okResp [("device_id", toString device_id),
                           ("device_type", dt.value)],
                   map ++ [(device_id, dt)])
      else
        (errResp "Device ID must be an integer greater than zero.", map)

/-- Source `Server.control_device`: validates id and action name, looks the id
up in `device_map`, checks the action/type compatibility and the numeric
bounds on `value`.  This server only acknowledges (it holds no device
objects), so the map is never modified here. -/
def control_device (msg : Msg) (map : DeviceMap) : Response :=
  match msg.device_id with
  | none => errResp "\x27NoneType\x27 object has no attribute \x27isdigit\x27"
  | some s =>
      if pyIsDigit s then
        let device_id := pyInt s
        if device_id ≤ 0 then
          errResp "Device ID must be greater than zero."
        else
          match msg.device_action with
          | none => errResp "\x27NoneType\x27 object has no attribute \x27upper\x27"
          | some astr =>
              match parseDeviceAction (pyUpper astr) with
              | none =>
                  errResp "Device action must be one of: CHANGE_SPEED, CHANGE_PATH, GET_VALUE, ON, OFF."
              | some act =>
                  match map.lookup device_id with
                  | none => errResp "Invalid device ID."
                  | some dt =>
                      match act with
                      | .turnOn =>
                          okResp [("device_id", toString device_id),
                                  ("device_state", "ON")]
                      | .turnOff =>
                          okResp [("device_id", toString device_id),
                                  ("device_state", "OFF")]
                      | .changeSpeed =>
                          if dt ≠ DeviceType.motor then
                            errResp "CHANGE_SPEED action is only valid for MOTOR devices."
                          else
                            match msg.value with
                            | none => errResp "\x27NoneType\x27 object has no attribute \x27isdigit\x27"
                            | some sp =>
                                if pyIsDigit sp then
                                  let speed := pyInt sp
                                  if speed ≤ 100 then
                                    okResp [("device_id", toString device_id),
                                            ("device_action", "change_speed"),
                                            ("speed", toString speed)]
                                  else
                                    errResp "Speed must be between 0 and 100."
                                else
                                  errResp "Speed must be an integer."
                      | .changePath =>
                          if dt ≠ DeviceType.relay then
                            errResp "CHANGE_PATH action is only valid for RELAY devices."
                          else
                            match msg.value with
                            | none => errResp "\x27NoneType\x27 object has no attribute \x27isdigit\x27"
                            | some ps =>
                                if pyIsDigit ps then
                                  let path := pyInt ps
                                  if path ≤ 3 then
                                    okResp [("device_id", toString device_id),
                                            ("device_action", "change_path"),
                                            ("path", toString path)]
                                  else
                                    errResp "Path must be between 0 and 3."
                                else
                                  errResp "Path must be an integer."
                      | .getValue =>
                          if dt ≠ DeviceType.sensor then
                            errResp "GET_VALUE action is only valid for SENSOR devices."
                          else
                            okResp [("device_id", toString device_id),
                                    ("device_action", "get_value"),
                                    ("value", "unknown")]
      else
        errResp "Device ID must be an integer greater than zero."

/-- Source `Server.get_device_state`: validates the id, looks it up, and
answers with the stored type and the placeholder state "ON". -/
def get_device_state (msg : Msg) (map : DeviceMap) : Response :=
  match msg.device_id with
  | none => errResp "\x27NoneType\x27 object has no attribute \x27isdigit\x27"
  | some s =>
      if pyIsDigit s then
        let device_id := pyInt s
        if device_id ≤ 0 then
          errResp "Device ID must be greater than zero."
        else
          match map.lookup device_id with
          | none => errResp "Invalid device ID."
          | some dt =>
              okResp [("device_id", toString device_id),
                      ("device_type", dt.value),
                      ("state", "ON")]
      else
        errResp "Device ID must be an integer greater than zero."

/-- Source `Server.process_message`: routes on `request_type`, answering
`"Invalid request type."` for anything outside {1, 2, 3}; the outer
`except` never fires because every handler already catches. -/
def process_message (msg : Msg) (map : DeviceMap) : Response × DeviceMap :=
  match msg.request_type with
  | some 1 => create_device msg map
  | some 2 => (control_device msg map, map)
  | some 3 => (get_device_state msg map, map)
  | _ => (errResp "Invalid request type.", map)

/-- The response-envelope discipline of §7: success carries
`result_code = 0` with an empty `error_message`, failure carries
`result_code = 1` with a nonempty `error_message`; nothing else. -/
def goodResp (r : Response) : Prop :=
  (r.result_code = 0 ∧ r.error_message = "") ∨
  (r.result_code = 1 ∧ r.error_message ≠ "")

end ClientServer

namespace SWM

/-- A dynamic Python value held in a `main.py` device slot when driven by
`server-with-manager.py`: the initial int, a raw request string, or
`None`. -/
inductive PyVal where
  | pint (n : Int)
  | pstr (s : String)
  | pnone
deriving DecidableEq

/-- Python `str()` of such a value, as interpolated into messages. -/
def PyVal.str : PyVal → String
  | .pint n => toString n
  | .pstr s => s
  | .pnone => "None"

/-- The raw `message.get("value")` as assigned into a slot. -/
def ofOptStr : Option String → PyVal
  | none => .pnone
  | some s => .pstr s

/-- Python `str()` of the raw `device_id` field (a string or `None`). -/
def idStr : Option String → String
  | none => "None"
  | some s => s

/-- Source `main.py` `Motor` as instantiated by `server-with-manager.py`: the
id is the raw `device_id` message field and `speed` is assigned raw
request values by `perform_action`. -/
structure Motor where
  id : Option String
  status : String
  speed : PyVal
deriving DecidableEq

/-- Source `main.py` `Relay` at the same call-site. -/
structure Relay where
  id : Option String
  status : String
  path : PyVal
deriving DecidableEq

/-- Source `main.py` `Sensor` at the same call-site; `server-with-manager.py`
never passes a sensor subtype, so `sensor_type` is always `None` here. -/
structure Sensor where
  id : Option String
  status : String
  sensor_type : Option ClassManager.SensorType
  value : Int
deriving DecidableEq

/-- The `main.py` device variants at the server call-site. -/
inductive Device where
  | motor (m : Motor)
  | sensor (s : Sensor)
  | relay (r : Relay)
deriving DecidableEq

/-- Common `id` property. -/
def Device.id : Device → Option String
  | .motor m => m.id
  | .sensor s => s.id
  | .relay r => r.id

/-- Source `on()` methods. -/
def Device.turnOn : Device → String × Device
  | .motor m => ("Motor " ++ idStr m.id ++ " is now ON.", .motor { m with status := "on" })
  | .sensor s => ("Sensor " ++ idStr s.id ++ " is now ON.", .sensor { s with status := "on" })
  | .relay r => ("Relay " ++ idStr r.id ++ " is now ON.", .relay { r with status := "on" })

/-- Source `off()` methods. -/
def Device.turnOff : Device → String × Device
  | .motor m => ("Motor " ++ idStr m.id ++ " is now OFF.", .motor { m with status := "off" })
  | .sensor s => ("Sensor " ++ idStr s.id ++ " is now OFF.", .sensor { s with status := "off" })
  | .relay r => ("Relay " ++ idStr r.id ++ " is now OFF.", .relay { r with status := "off" })

/-- Source `main.py` `DeviceStatus` fields as populated at this call-site. -/
structure Status where
  id : Option String
  status : String
  speed : PyVal := .pnone
  path : PyVal := .pnone
  sensor_type : Option String := none
  value : Option Int := none
deriving DecidableEq

/-- Source `main.py` `Manager` driven by the server. -/
structure Manager where
  devices : List Device
deriving DecidableEq

/-- Source `Manager.create_device(device_type, device_id)` as called by
`__create_device`: speed defaults to 0, sensor subtype and path to
`None`; the factory builds the variant and it is appended unchecked. -/
def Manager.create_device (m : Manager) (dt : ClassManager.DeviceType)
    (id : Option String) : String × Manager :=
  let device : Device :=
    match dt with
    | .motor => .motor { id := id, status := "off", speed := .pint 0 }
    | .sensor => .sensor { id := id, status := "off", sensor_type := none, value := 0 }
    | .relay => .relay { id := id, status := "off", path := .pnone }
  ("A " ++ dt.value ++ " created with id " ++ idStr id,
   ⟨m.devices ++ [device]⟩)

/-- Action dispatch of `main.py` `Manager.control_device` with raw string
values: motor speed and relay path are assigned without validation. -/
def Manager.dispatch (d : Device) (a : ClassManager.DeviceAction)
    (v : Option String) : (Except String String) × Device :=
  match a, d with
  | .turnOn, d => let (msg, d') := d.turnOn; (.ok msg, d')
  | .turnOff, d => let (msg, d') := d.turnOff; (.ok msg, d')
  | .changeSpeed, .motor m =>
      (.ok ("Speed of motor " ++ idStr m.id ++ " changed to " ++ (ofOptStr v).str),
       .motor { m with speed := ofOptStr v })
  | .changePath, .relay r =>
      (.ok ("Path of relay " ++ idStr r.id ++ " changed to " ++ (ofOptStr v).str),
       .relay { r with path := ofOptStr v })
  | .getValue, .sensor s =>
      (.ok ("Value of sensor " ++ idStr s.id ++ ": " ++ toString s.value),
       .sensor s)
  | a, d =>
      (.error ("Unknown action or inappropriate device type for action: "
               ++ a.pyStr), d)

/-- Lookup-and-mutate of the first id match. -/
def controlGo (id : Option String) (a : ClassManager.DeviceAction)
    (v : Option String) : List Device → (Except String String) × List Device
  | [] => (.error ("Device with ID " ++ idStr id ++ " does not exist."), [])
  | d :: rest =>
      if d.id = id then
        let (res, d') := Manager.dispatch d a v
        (res, d' :: rest)
      else
        let (res, rest') := controlGo id a v rest
        (res, d :: rest')

/-- Source `main.py` `Manager.control_device` with raw message fields. -/
def Manager.control_device (m : Manager) (id : Option String)
    (a : ClassManager.DeviceAction) (v : Option String) :
    (Except String String) × Manager :=
  let (res, ds) := controlGo id a v m.devices
  (res, ⟨ds⟩)

/-- Source `main.py` `Manager.get_state`: first match's `device_status()`.  A
sensor with `sensor_type = None` raises `AttributeError` at
`self.__sensor_type.value`. -/
def Manager.get_state (m : Manager) (id : Option String) :
    Except String Status :=
  match m.devices.find? (fun d => d.id == id) with
  | some (.motor mo) => .ok { id := mo.id, status := mo.status, speed := mo.speed }
  | some (.relay r) => .ok { id := r.id, status := r.status, path := r.path }
  | some (.sensor s) =>
      match s.sensor_type with
      | none => .error "\x27NoneType\x27 object has no attribute \x27value\x27"
      | some st =>
          .ok { id := s.id, status := s.status,
                sensor_type := some (match st with
                  | .lightSensor => "Light Sensor"
                  | .co2Sensor => "CO2 Sensor"
                  | .soilHumiditySensor => "Soil Humidity Sensor"
                  | .airHumidityAndTemperatureSensor => "Air Temperature and Humidity Sensor"),
                value := some s.value }
  | none => .error ("Device with ID " ++ idStr id ++ " does not exist.")

/-- Source `DeviceType[name]` for `main.py`'s enum (member names upper-case). -/
def parseDeviceType : String → Option ClassManager.DeviceType
  | "MOTOR" => some .motor
  | "SENSOR" => some .sensor
  | "RELAY" => some .relay
  | _ => none

/-- Source `DeviceAction[name]` for `main.py`'s enum. -/
def parseDeviceAction : String → Option ClassManager.DeviceAction
  | "ON" => some .turnOn
  | "OFF" => some .turnOff
  | "CHANGE_SPEED" => some .changeSpeed
  | "CHANGE_PATH" => some .changePath
  | "GET_VALUE" => some .getValue
  | _ => none

/-- The `data` member of a `server-with-manager.py` response: empty on
failure, the create info dict, the raw result string of a control, or
the `DeviceStatus` object of a state query. -/
inductive Data where
  | empty
  | created (device_id : Option String) (details : String)
  | text (s : String)
  | state (st : Status)
deriving DecidableEq

/-- The response envelope of `server-with-manager.py`. -/
structure Response where
  result_code : Nat
  error_message : String
  data : Data
deriving DecidableEq

/-- An error response. -/
def errResp (msg : String) : Response :=
  { result_code := 1, error_message := msg, data := .empty }

/-- Source `Server.__create_device`: parses the type name (an unknown name's
`KeyError` prints the quoted key), passes the raw `device_id` field to
the manager unvalidated, and reports success.  Only the enum lookup can
fail. -/
def create_device (msg : Msg) (mgr : Manager) : Response × Manager :=
  match msg.device_type with
  | none =>
      (errResp "\x27NoneType\x27 object has no attribute \x27upper\x27", mgr)
  | some t =>
      match parseDeviceType (pyUpper t) with
      | none => (errResp ("\x27" ++ pyUpper t ++ "\x27"), mgr)
      | some dt =>
          let (res, mgr') := mgr.create_device dt msg.device_id
          ({ result_code := 0, error_message := "",
             data := .created msg.device_id res }, mgr')

/-- Source `Server.__control_device`: parses the action name and delegates to
the manager; any exception becomes an error response and, since every
raise in the manager precedes mutation, leaves the manager unchanged. -/
def control_device (msg : Msg) (mgr : Manager) : Response × Manager :=
  match msg.device_action with
  | none =>
      (errResp "\x27NoneType\x27 object has no attribute \x27upper\x27", mgr)
  | some astr =>
      match parseDeviceAction (pyUpper astr) with
      | none => (errResp ("\x27" ++ pyUpper astr ++ "\x27"), mgr)
      | some act =>
          match mgr.control_device msg.device_id act msg.value with
          | (.error e, mgr') => (errResp e, mgr')
          | (.ok res, mgr') =>
              ({ result_code := 0, error_message := "", data := .text res }, mgr')

/-- Source `Server.__get_device_state`: delegates to `Manager.get_state`,
reporting any exception's message. -/
def get_device_state (msg : Msg) (mgr : Manager) : Response :=
  match mgr.get_state msg.device_id with
  | .error e => errResp e
  | .ok st => { result_code := 0, error_message := "", data := .state st }

/-- Source `Server.__process_message`: routes on `request_type`, answering
`"Invalid request type."` outside {1, 2, 3}. -/
def process_message (msg : Msg) (mgr : Manager) : Response × Manager :=
  match msg.request_type with
  | some 1 => create_device msg mgr
  | some 2 => control_device msg mgr
  | some 3 => (get_device_state msg mgr, mgr)
  | _ => (errResp "Invalid request type.", mgr)

/-- The response-envelope discipline of §7 for this server: success is
`result_code = 0` with empty `error_message`, failure is
`result_code = 1` with a nonempty `error_message`. -/
def goodResp (r : Response) : Prop :=
  (r.result_code = 0 ∧ r.error_message = "") ∨
  (r.result_code = 1 ∧ r.error_message ≠ "")

end SWM

/-! Helper lemmas -/

/-- A nonempty string stays nonempty after appending on the right.
Used to show every interpolated error message is nonempty. -/
theorem str_append_ne_empty (s t : String) (h : s ≠ "") : s ++ t ≠ "" := by
  intro he
  apply h
  have hd : (s ++ t).data = ("" : String).data := congrArg String.data he
  have hdd : s.data ++ t.data = [] := by simpa [String.data_append] using hd
  have hs : s.data = [] := (List.append_eq_nil.mp hdd).1
  cases s
  simp_all

/-- Appending twice on the right also preserves nonemptiness. -/
theorem str3_ne_empty (s t u : String) (h : s ≠ "") : s ++ t ++ u ≠ "" :=
  str_append_ne_empty (s ++ t) u (str_append_ne_empty s t h)

/-- First match of `find?` skips a prefix in which no element satisfies
the predicate (models Python's `next(d for d in devices if ...)`). -/
theorem find_skip_front {α : Type} (p : α → Bool) (pre rest : List α)
    (h : ∀ e ∈ pre, p e = false) : (pre ++ rest).find? p = rest.find? p := by
  induction pre with
  | nil => rfl
  | cons x xs ih =>
      have hx : p x = false := h x (List.mem_cons_self x xs)
      have hxs : ∀ e ∈ xs, p e = false := fun e he => h e (List.mem_cons_of_mem x he)
      simp [List.find?, hx, ih hxs]

namespace ClassManager

/-- Source `controlGo` ignores a prefix holding no device with the looked-up id:
it dispatches further down the list and re-attaches the prefix
unchanged. -/
theorem controlGo_skip_front (id : Int) (a : DeviceAction) (v : Option Int)
    (pre rest : List Device) (h : ∀ e ∈ pre, e.id ≠ id) :
    controlGo id a v (pre ++ rest) =
      ((controlGo id a v rest).1, pre ++ (controlGo id a v rest).2) := by
  induction pre with
  | nil => simp [controlGo]
  | cons x xs ih =>
      have hx : x.id ≠ id := h x (List.mem_cons_self x xs)
      have hxs : ∀ e ∈ xs, e.id ≠ id := fun e he => h e (List.mem_cons_of_mem x he)
      simp [controlGo, hx, ih hxs]

/-- Source `controlGo` on a list whose head matches dispatches on the head. -/
theorem controlGo_head (id : Int) (a : DeviceAction) (v : Option Int)
    (d : Device) (rest : List Device) (h : d.id = id) :
    controlGo id a v (d :: rest) =
      ((Manager.dispatch d a v).1, (Manager.dispatch d a v).2 :: rest) := by
  simp [controlGo, h]

/-- Source `control_device` on a registry whose first id match is `d` applies
the action dispatch to `d` alone, leaving every other device in place. -/
theorem control_device_first_match (pre post : List Device) (d : Device)
    (id : Int) (a : DeviceAction) (v : Option Int)
    (hpre : ∀ e ∈ pre, e.id ≠ id) (hd : d.id = id) :
    Manager.control_device ⟨pre ++ d :: post⟩ id a v =
      ((Manager.dispatch d a v).1,
       ⟨pre ++ (Manager.dispatch d a v).2 :: post⟩) := by
  simp [Manager.control_device, controlGo_skip_front id a v pre (d :: post) hpre,
        controlGo_head id a v d post hd]

/-- Source `get_state` on a registry whose first id match is `d` returns `d`'s
status snapshot. -/
theorem get_state_first_match (pre post : List Device) (d : Device)
    (id : Int) (hpre : ∀ e ∈ pre, e.id ≠ id) (hd : d.id = id) :
    Manager.get_state ⟨pre ++ d :: post⟩ id = .ok d.device_status := by
  have hfalse : ∀ e ∈ pre, (fun x : Device => x.id == id) e = false := by
    intro e he
    simpa using hpre e he
  have hfind : (pre ++ d :: post).find? (fun x : Device => x.id == id)
      = (d :: post).find? (fun x : Device => x.id == id) :=
    find_skip_front _ pre (d :: post) hfalse
  simp [Manager.get_state, hfind, List.find?, hd]

end ClassManager

/-! Claim theorems -/

open ClassManager in
/-- C4: for every Relay and every integer path, `perform_action(path)`
succeeds and sets the relay's path if and only if `path ∈ {1,2,3}`; for
every path outside `{1,2,3}` it fails with the `ValueError` of the path
setter and the stored path is unchanged. -/
theorem relay_perform_action_validates (r : Relay) (p : Int) :
    (1 ≤ p ∧ p ≤ 3 →
      r.perform_action (some p) =
        (.ok ("Path of relay " ++ toString r.id ++ " changed to " ++ toString p),
         { r with path := some p })) ∧
    (¬(1 ≤ p ∧ p ≤ 3) →
      r.perform_action (some p) =
        (.error "Path must be an integer between 1 and 4", r)) := by
  constructor <;> intro h <;> simp [Relay.perform_action, h]

open ClassManager in
/-- C4 witness: path 2 is accepted and stored, path 7 is rejected with
the relay unchanged. -/
theorem relay_perform_action_validates_witness :
    (Relay.perform_action ⟨3, "off", none⟩ (some 2) =
      (.ok "Path of relay 3 changed to 2", ⟨3, "off", some 2⟩)) ∧
    (Relay.perform_action ⟨3, "off", none⟩ (some 7) =
      (.error "Path must be an integer between 1 and 4", ⟨3, "off", none⟩)) := by
  refine ⟨?_, ?_⟩
  · have h := (relay_perform_action_validates ⟨3, "off", none⟩ 2).1 (by decide)
    simpa using h
  · have h := (relay_perform_action_validates ⟨3, "off", none⟩ 7).2 (by decide)
    simpa using h

open ClassManager in
/-- C5: for every registry whose first device with the looked-up id is
not a Motor, `control_device(id, CHANGE_SPEED, v)` fails with the
"Unknown action or inappropriate device type" `ValueError` for every
value `v`, and the registry is unchanged. -/
theorem change_speed_wrong_type_fails (pre post : List Device) (d : Device)
    (id : Int) (v : Option Int)
    (hpre : ∀ e ∈ pre, e.id ≠ id) (hd : d.id = id) (hm : d.isMotor = false) :
    Manager.control_device ⟨pre ++ d :: post⟩ id .changeSpeed v =
      (.error "Unknown action or inappropriate device type for action: DeviceAction.CHANGE_SPEED",
       ⟨pre ++ d :: post⟩) := by
  rw [control_device_first_match pre post d id .changeSpeed v hpre hd]
  cases d with
  | motor m => simp [Device.isMotor] at hm
  | sensor s => simp [Manager.dispatch, DeviceAction.pyStr]
  | relay r => simp [Manager.dispatch, DeviceAction.pyStr]

open ClassManager in
/-- C5 witness: CHANGE_SPEED on a relay with value 42 fails with the
type-mismatch error and leaves the one-relay registry untouched. -/
theorem change_speed_wrong_type_fails_witness :
    Manager.control_device ⟨[.relay ⟨3, "off", none⟩]⟩ 3 .changeSpeed (some 42) =
      (.error "Unknown action or inappropriate device type for action: DeviceAction.CHANGE_SPEED",
       ⟨[.relay ⟨3, "off", none⟩]⟩) := by
  have h := change_speed_wrong_type_fails [] [] (.relay ⟨3, "off", none⟩) 3 (some 42)
    (by intro e he; simp at he) (by rfl) (by rfl)
  simpa using h

open ClassManager in
/-- C8: `get_state(id)` fails with the "does not exist" `ValueError` for
every id absent from the registry, and returns the first matching
device's status snapshot for every id present.  `get_state` is modelled
as a pure function of the registry — it constructs a fresh
`DeviceStatus` and mutates nothing, as in the source. -/
theorem get_state_found_or_not_found :
    (∀ (m : Manager) (id : Int), (∀ d ∈ m.devices, d.id ≠ id) →
      m.get_state id = .error ("Device with ID " ++ toString id ++ " does not exist.")) ∧
    (∀ (pre post : List Device) (d : Device) (id : Int),
      (∀ e ∈ pre, e.id ≠ id) → d.id = id →
      Manager.get_state ⟨pre ++ d :: post⟩ id = .ok d.device_status) := by
  constructor
  · intro m id h
    have hfind : m.devices.find? (fun d => d.id == id) = none := by
      rw [List.find?_eq_none]
      intro x hx
      simpa using h x hx
    simp [Manager.get_state, hfind]
  · exact get_state_first_match

open ClassManager in
/-- C8 witness: `get_state(999)` on the empty registry fails with
`NotFound`, and `get_state(1)` on a one-motor registry returns the
motor's snapshot. -/
theorem get_state_found_or_not_found_witness :
    (Manager.get_state ⟨[]⟩ 999 = .error "Device with ID 999 does not exist.") ∧
    (Manager.get_state ⟨[.motor ⟨1, "on", 20⟩]⟩ 1 =
      .ok { id := 1, status := "on", speed := some 20 }) := by
  constructor
  · have h := get_state_found_or_not_found.1 ⟨[]⟩ 999 (by intro d hd; simp at hd)
    simpa using h
  · have h := get_state_found_or_not_found.2 [] [] (.motor ⟨1, "on", 20⟩) 1
      (by intro e he; simp at he) (by rfl)
    simpa [Device.device_status, Motor.device_status] using h

open ClassManager in
/-- C9: for every device of every variant, `on()` always succeeds and is
idempotent — after the call the status is "on", a second call returns
the very same confirmation and state — and the confirmation message
embeds the device id and the new state; symmetrically for `off()`.
(`turnOn`/`turnOff` are total functions returning a message, so no call
can error.) -/
theorem on_off_idempotent (d : Device) :
    ((d.turnOn).2.status = "on") ∧
    ((d.turnOn).2.turnOn = d.turnOn) ∧
    ((d.turnOn).1 = d.typeName ++ " " ++ toString d.id ++ " is now ON.") ∧
    ((d.turnOff).2.status = "off") ∧
    ((d.turnOff).2.turnOff = d.turnOff) ∧
    ((d.turnOff).1 = d.typeName ++ " " ++ toString d.id ++ " is now OFF.") := by
  cases d with
  | motor m =>
      refine ⟨rfl, rfl, ?_, rfl, rfl, ?_⟩ <;>
        simp [Device.turnOn, Device.turnOff, Motor.turnOn, Motor.turnOff,
              Device.typeName, Device.id, String.append_assoc]
  | sensor s =>
      refine ⟨rfl, rfl, ?_, rfl, rfl, ?_⟩ <;>
        simp [Device.turnOn, Device.turnOff, Sensor.turnOn, Sensor.turnOff,
              Device.typeName, Device.id, String.append_assoc]
  | relay r =>
      refine ⟨rfl, rfl, ?_, rfl, rfl, ?_⟩ <;>
        simp [Device.turnOn, Device.turnOff, Relay.turnOn, Relay.turnOff,
              Device.typeName, Device.id, String.append_assoc]

open ClassManager in
/-- C10: `control_device` and `get_state` operate on the first device in
creation (append) order whose id matches: `get_state` reports exactly
that device's snapshot, and `control_device` dispatches on that device
alone, leaving the prefix and everything after it — including any
later-created device with the same id — untouched, so the later
duplicate is unreachable through the public interface. -/
theorem first_match_shadows_duplicates (pre post : List Device) (d : Device)
    (id : Int) (a : DeviceAction) (v : Option Int)
    (hpre : ∀ e ∈ pre, e.id ≠ id) (hd : d.id = id) :
    (Manager.get_state ⟨pre ++ d :: post⟩ id = .ok d.device_status) ∧
    (Manager.control_device ⟨pre ++ d :: post⟩ id a v =
      ((Manager.dispatch d a v).1,
       ⟨pre ++ (Manager.dispatch d a v).2 :: post⟩)) :=
  ⟨get_state_first_match pre post d id hpre hd,
   control_device_first_match pre post d id a v hpre hd⟩

open ClassManager in
/-- C10 witness: with two motors of id 1 in the registry (speeds 5 and
99), `get_state` reports the first and `CHANGE_SPEED 50` rewrites only
the first; the later duplicate keeps speed 99. -/
theorem first_match_shadows_duplicates_witness :
    (Manager.get_state ⟨[.motor ⟨1, "off", 5⟩, .motor ⟨1, "off", 99⟩]⟩ 1 =
      .ok { id := 1, status := "off", speed := some 5 }) ∧
    (Manager.control_device ⟨[.motor ⟨1, "off", 5⟩, .motor ⟨1, "off", 99⟩]⟩ 1
        .changeSpeed (some 50) =
      (.ok "Speed of motor 1 changed to 50",
       ⟨[.motor ⟨1, "off", 50⟩, .motor ⟨1, "off", 99⟩]⟩)) := by
  have h := first_match_shadows_duplicates [] [.motor ⟨1, "off", 99⟩]
    (.motor ⟨1, "off", 5⟩) 1 .changeSpeed (some 50)
    (by intro e he; simp at he) (by rfl)
  constructor
  · simpa [Device.device_status, Motor.device_status] using h.1
  · have h2 := h.2
    simpa [Manager.dispatch, Motor.perform_action] using h2

open ClassManager in
/-- C1 counterexample: `Manager.create_device` performs no duplicate-id
check.  Creating Motor id 1 twice: the second call also returns the
success message, and the registry afterwards holds two devices with
id 1 — refuting that a duplicate create fails with `DuplicateId` leaving
exactly one device with that id. -/
theorem duplicate_create_succeeds_in_manager :
    ((Manager.create_device ⟨[]⟩ .motor 1 none).2.create_device .motor 1 none) =
      ("A Motor created with id 1",
       ⟨[.motor ⟨1, "off", 0⟩, .motor ⟨1, "off", 0⟩]⟩) ∧
    (((Manager.create_device ⟨[]⟩ .motor 1 none).2.create_device .motor 1 none).2.devices.countP
        (fun d => d.id == 1) = 2) := by
  constructor <;> rfl

open ClientServer in
/-- C1 (amended): in the dispatcher registry of `client-server/server.py`
(`device_map`), a create request whose id is already present fails with
the "Device ID already exists." error (`result_code = 1`) and the map is
returned unchanged, so the existing entry for that id — still exactly
one, with its type intact — is unaffected. -/
theorem server_duplicate_create_rejected (map : DeviceMap) (msg : Msg)
    (s : String) (dt : DeviceType)
    (hid : msg.device_id = some s) (hdig : pyIsDigit s = true)
    (hpos : 0 < pyInt s) (hdup : map.lookup (pyInt s) = some dt) :
    create_device msg map = (errResp "Device ID already exists.", map) ∧
    ((create_device msg map).2.lookup (pyInt s) = some dt) ∧
    ((create_device msg map).2.countP (fun e => e.1 == pyInt s) =
      map.countP (fun e => e.1 == pyInt s)) := by
  have hnle : ¬ pyInt s ≤ 0 := by omega
  have hsome : (map.lookup (pyInt s)).isSome = true := by
    rw [hdup]; rfl
  refine ⟨?_, ?_, ?_⟩ <;> simp [create_device, hid, hdig, hnle, hsome, hdup]

open ClientServer in
/-- C1 witness: with motor id 7 registered, a second create for id 7
(as a relay) is rejected and the map still holds exactly the motor
entry. -/
theorem server_duplicate_create_rejected_witness :
    create_device { request_type := some 1, device_id := some "7",
                    device_type := some "relay" } [(7, .motor)] =
      (errResp "Device ID already exists.", [(7, .motor)]) := by
  have h := server_duplicate_create_rejected [(7, .motor)]
    { request_type := some 1, device_id := some "7", device_type := some "relay" }
    "7" .motor rfl (by decide) (by decide) (by decide)
  exact h.1

open SmartTerarium.MainPy in
/-- C2 counterexample: in the duplicate stack of `main.py`,
`Motor.perform_action` assigns the speed field directly (bypassing the
validating setter), so `control_device(1, CHANGE_SPEED, 150)` succeeds
with a confirmation and the stored speed becomes 150 — refuting that
every Motor rejects speeds outside [0,100] with `ValidationError`. -/
theorem main_motor_accepts_speed_150 :
    ((MainPy.Manager.create_device ⟨[]⟩ .motor 1 0 none none).2.control_device
        1 .changeSpeed (some 150)) =
      (.ok "Speed of motor 1 changed to 150",
       ⟨[.motor ⟨1, "off", some 150⟩]⟩) := by
  rfl

open ClassManager in
/-- C2 (amended): for the `class_manager` stack — whose
`Motor.perform_action` assigns through the validating `speed` setter —
`control_device(id, CHANGE_SPEED, s)` on a registry whose first id match
is a motor fails with the `ValueError` "Speed must be between (0-100)
value" for every `s` outside [0,100], leaving the registry (hence the
stored speed) unchanged, and for every `s` within [0,100] succeeds,
stores the speed, and returns the confirmation. -/
theorem motor_change_speed_validates (pre post : List Device) (mo : Motor)
    (id s : Int) (hpre : ∀ e ∈ pre, e.id ≠ id) (hd : mo.id = id) :
    ((s < 0 ∨ 100 < s) →
      Manager.control_device ⟨pre ++ .motor mo :: post⟩ id .changeSpeed (some s) =
        (.error "Speed must be between (0-100) value",
         ⟨pre ++ .motor mo :: post⟩)) ∧
    ((0 ≤ s ∧ s ≤ 100) →
      Manager.control_device ⟨pre ++ .motor mo :: post⟩ id .changeSpeed (some s) =
        (.ok ("Speed of motor " ++ toString mo.id ++ " changed to " ++ toString s),
         ⟨pre ++ .motor { mo with speed := s } :: post⟩)) := by
  rw [control_device_first_match pre post (.motor mo) id .changeSpeed (some s) hpre hd]
  constructor
  · intro h
    have hrange : ¬(0 ≤ s ∧ s ≤ 100) := by omega
    simp [Manager.dispatch, Motor.perform_action, hrange]
  · intro h
    simp [Manager.dispatch, Motor.perform_action, h]

open ClassManager in
/-- C2 witness: on a one-motor registry, speed 150 is rejected with the
registry unchanged, and speed 20 is accepted and stored. -/
theorem motor_change_speed_validates_witness :
    (Manager.control_device ⟨[.motor ⟨1, "on", 0⟩]⟩ 1 .changeSpeed (some 150) =
      (.error "Speed must be between (0-100) value", ⟨[.motor ⟨1, "on", 0⟩]⟩)) ∧
    (Manager.control_device ⟨[.motor ⟨1, "on", 0⟩]⟩ 1 .changeSpeed (some 20) =
      (.ok "Speed of motor 1 changed to 20", ⟨[.motor ⟨1, "on", 20⟩]⟩)) := by
  constructor
  · have h := (motor_change_speed_validates [] [] ⟨1, "on", 0⟩ 1 150
      (by intro e he; simp at he) rfl).1 (by omega)
    simpa using h
  · have h := (motor_change_speed_validates [] [] ⟨1, "on", 0⟩ 1 20
      (by intro e he; simp at he) rfl).2 (by omega)
    simpa using h

open ClassManager in
/-- C6 counterexample: creating a Relay (id 3) and reading its state
returns a status whose `path` field is `None` — the relay's path is
unset before the first CHANGE_PATH — refuting that a Relay status "has
only path set". -/
theorem fresh_relay_status_has_no_path :
    ((Manager.create_device ⟨[]⟩ .relay 3 none).2.get_state 3 =
      .ok { id := 3, status := "off", path := none }) ∧
    (({ id := 3, status := "off", path := none } : DeviceStatus).path.isSome = false) := by
  constructor <;> rfl

open ClassManager in
/-- C6 (amended): for every valid creation into a registry with no
existing device of that id, `create_device` followed by `get_state`
returns a status whose id equals the created id and whose
variant-specific fields are exactly those applicable to the type: a
Motor status has `speed` set (to 0) and path/sensor_type/value absent; a
Relay status has speed/sensor_type/value absent and `path` equal to the
relay's current path, which is still unset (`None`) right after
creation; a Sensor status has `sensor_type` and `value` set and
speed/path absent. -/
theorem create_then_get_state_fields (m : Manager) (id : Int) (st : SensorType)
    (h : ∀ d ∈ m.devices, d.id ≠ id) :
    ((m.create_device .motor id none).2.get_state id =
      .ok { id := id, status := "off", speed := some 0 }) ∧
    ((m.create_device .relay id none).2.get_state id =
      .ok { id := id, status := "off", path := none }) ∧
    ((m.create_device .sensor id (some st)).2.get_state id =
      .ok { id := id, status := "off", sensor_type := some st, value := some 0 }) := by
  have hnone : m.devices.find? (fun x : Device => x.id == id) = none := by
    rw [List.find?_eq_none]
    intro x hx
    simpa using h x hx
  refine ⟨?_, ?_, ?_⟩ <;>
    (simp [Manager.create_device, Manager.get_state, Device.create, hnone,
           Device.device_status, Motor.device_status, Relay.device_status,
           Sensor.device_status]
     try simp [Device.id])

open ClassManager in
/-- C6 witness: concrete creations into the empty registry for all three
variants, with the exact statuses read back. -/
theorem create_then_get_state_fields_witness :
    ((Manager.create_device ⟨[]⟩ .motor 1 none).2.get_state 1 =
      .ok { id := 1, status := "off", speed := some 0 }) ∧
    ((Manager.create_device ⟨[]⟩ .sensor 2 (some .lightSensor)).2.get_state 2 =
      .ok { id := 2, status := "off", sensor_type := some .lightSensor,
            value := some 0 }) := by
  have h1 := create_then_get_state_fields ⟨[]⟩ 1 .lightSensor
    (by intro d hd; simp at hd)
  have h2 := create_then_get_state_fields ⟨[]⟩ 2 .lightSensor
    (by intro d hd; simp at hd)
  exact ⟨h1.1, h2.2.2⟩

open SmartTerarium.SWM in
/-- C3 counterexample: the dispatcher of `server-with-manager.py` does
not validate `device_id` at all — a Create request with the non-numeric
id "abc" is answered with `result_code = 0` and a Motor keyed by the
string "abc" is registered, refuting that every Create with a
non-digit id yields a typed error and registers nothing. -/
theorem swm_create_registers_nonnumeric_id :
    SWM.process_message
        { request_type := some 1, device_id := some "abc",
          device_type := some "motor" } ⟨[]⟩ =
      ({ result_code := 0, error_message := "",
         data := .created (some "abc") "A Motor created with id abc" },
       ⟨[.motor ⟨some "abc", "off", .pint 0⟩]⟩) := by
  rfl

open ClientServer in
/-- C3 (amended): in the dispatcher of `client-server/server.py`, every
Create request whose `device_id` is absent, not a string of digits, or
parses to an integer ≤ 0 is answered with a typed error response
(`result_code = 1`) and the device map is unchanged (no device
registered).  The handler is a total function, so no error reaches the
transport layer. -/
theorem server_create_rejects_bad_id (msg : Msg) (map : DeviceMap)
    (hrt : msg.request_type = some 1)
    (hbad : msg.device_id = none ∨
      ∃ s, msg.device_id = some s ∧ (pyIsDigit s = false ∨ pyInt s ≤ 0)) :
    ((process_message msg map).1.result_code = 1) ∧
    ((process_message msg map).2 = map) := by
  rcases hbad with hnone | ⟨s, hs, hd⟩
  · simp [process_message, hrt, create_device, hnone, errResp]
  · by_cases hdig : pyIsDigit s = true
    · have hz : pyInt s ≤ 0 := by
        rcases hd with h1 | h2
        · rw [hdig] at h1; cases h1
        · exact h2
      simp [process_message, hrt, create_device, hs, hdig, hz, errResp]
    · have hdig' : pyIsDigit s = false := by
        cases hdd : pyIsDigit s
        · rfl
        · exact absurd hdd hdig
      simp [process_message, hrt, create_device, hs, hdig', errResp]

open ClientServer in
/-- C3 witness: the Create request with id "abc" is rejected with
`result_code = 1` and the empty map stays empty. -/
theorem server_create_rejects_bad_id_witness :
    ((process_message { request_type := some 1, device_id := some "abc",
                        device_type := some "motor" } []).1.result_code = 1) ∧
    ((process_message { request_type := some 1, device_id := some "abc",
                        device_type := some "motor" } []).2 = ([] : DeviceMap)) := by
  exact server_create_rejects_bad_id _ [] rfl
    (Or.inr ⟨"abc", rfl, Or.inl (by decide)⟩)

namespace ClientServer

/-- Every response of the create handler respects the envelope. -/
theorem cs_create_device_good (msg : Msg) (map : DeviceMap) :
    goodResp (create_device msg map).1 := by
  unfold create_device goodResp
  repeat' split
  all_goals simp [errResp, okResp]
  all_goals repeat' split
  all_goals simp [errResp, okResp]

/-- Every response of the control handler respects the envelope. -/
theorem cs_control_device_good (msg : Msg) (map : DeviceMap) :
    goodResp (control_device msg map) := by
  unfold control_device goodResp
  repeat' split
  all_goals simp [errResp, okResp]
  all_goals repeat' split
  all_goals simp [errResp, okResp]

/-- Every response of the get-state handler respects the envelope. -/
theorem cs_get_device_state_good (msg : Msg) (map : DeviceMap) :
    goodResp (get_device_state msg map) := by
  unfold get_device_state goodResp
  repeat' split
  all_goals simp [errResp, okResp]
  all_goals repeat' split
  all_goals simp [errResp, okResp]

end ClientServer

namespace SWM

/-- Every error produced by the manager's action dispatch has a nonempty
message. -/
theorem dispatch_err_nonempty (d : Device) (a : ClassManager.DeviceAction)
    (v : Option String) :
    ∀ e, (Manager.dispatch d a v).1 = .error e → e ≠ "" := by
  intro e he
  cases a <;> cases d <;>
    simp [Manager.dispatch, Device.turnOn, Device.turnOff] at he <;>
    (subst he; decide)

/-- Every error produced by the lookup-and-dispatch loop has a nonempty
message. -/
theorem controlGo_err_nonempty (id : Option String)
    (a : ClassManager.DeviceAction) (v : Option String) :
    ∀ (ds : List Device) (e : String), (controlGo id a v ds).1 = .error e → e ≠ "" := by
  intro ds
  induction ds with
  | nil =>
      intro e he
      simp [controlGo] at he
      subst he
      exact str3_ne_empty _ _ _ (by decide)
  | cons d rest ih =>
      intro e he
      by_cases hd : d.id = id
      · simp [controlGo, hd] at he
        exact dispatch_err_nonempty d a v e he
      · simp [controlGo, hd] at he
        exact ih e he

/-- Every error raised out of `Manager.control_device` has a nonempty
message. -/
theorem control_device_err_nonempty (m : Manager) (id : Option String)
    (a : ClassManager.DeviceAction) (v : Option String) :
    ∀ e, (m.control_device id a v).1 = .error e → e ≠ "" := by
  intro e he
  exact controlGo_err_nonempty id a v m.devices e he

/-- Every error raised out of `Manager.get_state` has a nonempty
message. -/
theorem get_state_err_nonempty (m : Manager) (id : Option String) :
    ∀ e, m.get_state id = .error e → e ≠ "" := by
  intro e he
  unfold Manager.get_state at he
  cases hf : m.devices.find? (fun d => d.id == id) with
  | none =>
      rw [hf] at he
      simp at he
      subst he
      exact str3_ne_empty _ _ _ (by decide)
  | some d =>
      rw [hf] at he
      cases d with
      | motor mo => simp at he
      | relay r => simp at he
      | sensor s =>
          cases hs : s.sensor_type with
          | none =>
              simp [hs] at he
              subst he
              decide
          | some st => simp [hs] at he

/-- Every response of the server's create handler respects the envelope. -/
theorem swm_create_device_good (msg : Msg) (mgr : Manager) :
    goodResp (create_device msg mgr).1 := by
  unfold create_device goodResp
  repeat' split
  · simp [errResp]
  · simp [errResp]
    exact str3_ne_empty _ _ _ (by decide)
  · simp [Manager.create_device]

/-- Every response of the server's control handler respects the
envelope. -/
theorem swm_control_device_good (msg : Msg) (mgr : Manager) :
    goodResp (control_device msg mgr).1 := by
  unfold control_device
  cases ha : msg.device_action with
  | none => simp [ha, goodResp, errResp]
  | some astr =>
      simp only [ha]
      cases hp : parseDeviceAction (pyUpper astr) with
      | none =>
          simp [hp, goodResp, errResp]
          exact str3_ne_empty _ _ _ (by decide)
      | some act =>
          simp only [hp]
          rcases hc : mgr.control_device msg.device_id act msg.value with ⟨res, mgr'⟩
          cases res with
          | error e =>
              have hne : e ≠ "" :=
                control_device_err_nonempty mgr msg.device_id act msg.value e
                  (by rw [hc])
              simp [goodResp, errResp, hne]
          | ok r =>
              simp [goodResp]

/-- Every response of the server's get-state handler respects the
envelope. -/
theorem swm_get_device_state_good (msg : Msg) (mgr : Manager) :
    goodResp (get_device_state msg mgr) := by
  unfold get_device_state
  cases hg : mgr.get_state msg.device_id with
  | error e =>
      have hne : e ≠ "" := get_state_err_nonempty mgr msg.device_id e hg
      simp [hg, goodResp, errResp, hne]
  | ok st => simp [hg, goodResp]

end SWM

/-- C7: both dispatchers' `process_message` are total functions of the
decoded message and the registry state (so no exception reaches the
transport loop); every response satisfies the envelope — `result_code`
0 with empty `error_message` on success, 1 with a nonempty
`error_message` on any error — and every `request_type` outside
{1, 2, 3} is answered with exactly the "Invalid request type." error
response, leaving the state untouched. -/
theorem dispatcher_total_envelope :
    (∀ (msg : Msg) (map : ClientServer.DeviceMap),
        ClientServer.goodResp (ClientServer.process_message msg map).1) ∧
    (∀ (msg : Msg) (map : ClientServer.DeviceMap),
        msg.request_type ≠ some 1 → msg.request_type ≠ some 2 →
        msg.request_type ≠ some 3 →
        ClientServer.process_message msg map =
          (ClientServer.errResp "Invalid request type.", map)) ∧
    (∀ (msg : Msg) (mgr : SWM.Manager),
        SWM.goodResp (SWM.process_message msg mgr).1) ∧
    (∀ (msg : Msg) (mgr : SWM.Manager),
        msg.request_type ≠ some 1 → msg.request_type ≠ some 2 →
        msg.request_type ≠ some 3 →
        SWM.process_message msg mgr = (SWM.errResp "Invalid request type.", mgr)) := by
  refine ⟨?_, ?_, ?_, ?_⟩
  · intro msg map
    unfold ClientServer.process_message
    split
    · exact ClientServer.cs_create_device_good msg map
    · exact ClientServer.cs_control_device_good msg map
    · exact ClientServer.cs_get_device_state_good msg map
    · simp [ClientServer.goodResp, ClientServer.errResp]
  · intro msg map h1 h2 h3
    unfold ClientServer.process_message
    split <;> simp_all
  · intro msg mgr
    unfold SWM.process_message
    split
    · exact SWM.swm_create_device_good msg mgr
    · exact SWM.swm_control_device_good msg mgr
    · exact SWM.swm_get_device_state_good msg mgr
    · simp [SWM.goodResp, SWM.errResp]
  · intro msg mgr h1 h2 h3
    unfold SWM.process_message
    split <;> simp_all

/-- C7 witness: `request_type = 9` is answered by both dispatchers with
the exact "Invalid request type." error envelope and unchanged state. -/
theorem dispatcher_total_envelope_witness :
    (ClientServer.process_message { request_type := some 9 } [] =
      (ClientServer.errResp "Invalid request type.", [])) ∧
    (SWM.process_message { request_type := some 9 } ⟨[]⟩ =
      (SWM.errResp "Invalid request type.", ⟨[]⟩)) := by
  refine ⟨?_, ?_⟩
  · exact dispatcher_total_envelope.2.1 _ [] (by decide) (by decide) (by decide)
  · exact dispatcher_total_envelope.2.2.2 _ ⟨[]⟩ (by decide) (by decide) (by decide)

end SmartTerarium
